import Mathlib

/-!
Verification development for the weight-only quantization loading layer
(`modeling_auto.py`): shallow embeddings of the reload-time configuration
resolution, the module-replacement builders, the dispatcher routing in
`from_pretrained`, the calibration collate functions, the
`recover_export_model` rewrite, and `save_low_bit`, together with theorems
settling the specified behavioural claims.
-/

namespace ModelingAuto

/-! ## String infix helper

`build_woq_model` skips modules whose qualified name contains one of the
excluded substrings (Python `"lm_head" in n`); we embed substring
containment over character lists. -/

def listHasInfix (sub : List Char) : List Char → Bool
  | [] => sub.isEmpty
  | c :: rest => sub.isPrefixOf (c :: rest) || listHasInfix sub rest

def strContains (s sub : String) : Bool :=
  listHasInfix sub.data s.data

/-! ## Reload-time config resolution (`load_low_bit`, lines 1742-1783)

`scale_dtype` resolution never fails: an unset value defaults to `"fp32"`,
and an unsupported value is coerced to `"fp32"` with a logged warning.
`weight_dtype` resolution: when unset it is derived from `bits`
(4 -> int4_clip, 8 -> int8, anything else falls back to int4_clip with a
warning); when set, an unrecognized value raises `ValueError`
(the spec's `InvalidWeightDtype`). -/

def supported_scale_dtypes : List String := ["fp32", "fp16", "bf16"]

def resolve_scale_dtype (scale_dtype : Option String) : String :=
  let sd := match scale_dtype with
    | none => "fp32"
    | some s => s
  if sd ∈ supported_scale_dtypes then sd else "fp32"

def recognized_weight_dtypes : List String :=
  ["int4_fullrange", "int4_clip", "int8", "fp8_e5m2", "fp8_e4m3", "nf4",
   "fp4_e2m1_bnb", "fp4_e2m1"]

inductive WeightDtypeResolution where
  | ok (weight_dtype : String)
  | invalidWeightDtype
  deriving DecidableEq, Repr

def resolve_weight_dtype (weight_dtype : Option String) (bits : Nat) :
    WeightDtypeResolution :=
  match weight_dtype with
  | none =>
    if bits = 4 then .ok "int4_clip"
    else if bits = 8 then .ok "int8"
    else .ok "int4_clip"
  | some wd =>
    if wd ∈ recognized_weight_dtypes then .ok wd
    else .invalidWeightDtype

/-! ## Module graph and `build_woq_model` (lines 156-177)

A model is embedded as its flattened `named_modules` listing: qualified
name paired with the module. `build_woq_model` replaces every dense linear
module whose name avoids the exclusion substrings by an empty-weight
`WeightOnlyLinear` skeleton built from the quantization config. -/

inductive PyModule where
  | linear (in_features out_features : Nat) (hasBias : Bool)
  | weightOnlyLinear (in_features out_features bits : Nat) (group_size : Int)
      (zp hasBias : Bool)
  | other (tag : Nat)
  deriving DecidableEq, Repr

structure WoqConfig where
  bits : Nat
  group_size : Int
  sym : Bool
  zero_point : Option Bool
  weight_dtype : String
  deriving DecidableEq, Repr

def excluded_module_name (n : String) : Bool :=
  strContains n "lm_head" || strContains n "output_layer" ||
    strContains n "embed_out"

def build_woq_replace (cfg : WoqConfig) (n : String) (m : PyModule) :
    PyModule :=
  if excluded_module_name n then m
  else match m with
    | .linear i o b =>
      .weightOnlyLinear i o cfg.bits cfg.group_size
        (cfg.zero_point.getD (!cfg.sym)) b
    | m => m

def build_woq_model (cfg : WoqConfig) (model : List (String × PyModule)) :
    List (String × PyModule) :=
  model.map fun nm => (nm.1, build_woq_replace cfg nm.1 nm.2)

/-! ## Skeleton allocation dispatch at reload (lines 1791-1805)

When the resolved `weight_dtype` is outside the sub-8-bit excluded set,
the empty-weight skeleton is built by `build_woq_model` (the compact
packing path); otherwise by `replace_linear(..., empty_weights=True)`
(the portable replacement path). -/

def sub8_excluded_dtypes : List String :=
  ["fp8_e5m2", "fp8_e4m3", "fp4", "nf4", "int4_fullrange"]

/-- Modelled from the spec: `replace_linear` lives in
`..llm.quantization.utils` and is not under `src/`; per the spec it
recursively replaces eligible dense linear layers (same exclusion set)
with packed low-bit equivalents, here in skeleton mode with buffers
left empty.  Its module constructor is abstracted by a distinct tag. -/
def replace_linear_empty (cfg : WoqConfig)
    (model : List (String × PyModule)) : List (String × PyModule) :=
  model.map fun nm =>
    (nm.1,
      if excluded_module_name nm.1 then nm.2
      else match nm.2 with
        | .linear i o b =>
          .weightOnlyLinear i o cfg.bits cfg.group_size
            (cfg.zero_point.getD (!cfg.sym)) b
        | m => m)

inductive SkeletonPath where
  | compactPacking
  | portableReplacement
  deriving DecidableEq, Repr

def load_low_bit_skeleton_path (weight_dtype : String) : SkeletonPath :=
  if ¬ (weight_dtype ∈ sub8_excluded_dtypes) then .compactPacking
  else .portableReplacement

def load_low_bit_build_skeleton (cfg : WoqConfig)
    (model : List (String × PyModule)) : List (String × PyModule) :=
  if ¬ (cfg.weight_dtype ∈ sub8_excluded_dtypes) then
    build_woq_model cfg model
  else
    replace_linear_empty cfg model

/-! ## Dispatcher routing in `from_pretrained` (lines 411-478, 590-618)

We embed the decision structure selecting the load pathway.  A request
carries the persisted config's `quant_method` when the model config has a
`quantization_config` attribute (the reload entry), the resolved
`use_neural_speed` flag, and the tag of a caller-supplied
`quantization_config` for the fresh-quantization entry.  When a saved
quantization config is present and neural speed is selected, the code
builds the config through the tagged dictionary (asserting the method is
one of rtn/awq/teq/gptq/autoround) and initializes the neural-speed model
directly, passing `use_gptq`/`use_awq` derived from the method; when the
caller also passed a config, the code uses it instead of rebuilding, with
the same flag derivation, so the routing is unchanged. -/

inductive UserQConfigTag where
  | rtn
  | awq
  | teq
  | gptq
  | autoround
  | bitsAndBytes
  | mixedPrecision
  | smoothQuant
  | staticQuant
  | dynamicQuant
  | qat
  | noConfig
  deriving DecidableEq, Repr

inductive LoadOutcome where
  /-- `logger.error(...)` followed by `exit(0)`, or the failed assertion
  guarding the tagged config dictionary: a fatal termination. -/
  | fatalExit
  /-- Reload of a saved low-bit model through neural speed:
  `Model().init(..., use_gptq=..., use_awq=...)`. -/
  | neuralSpeedReload (quant_method : String) (use_gptq use_awq : Bool)
  /-- Reload of a saved low-bit model through `cls.load_low_bit`. -/
  | loadLowBitReload
  /-- Fresh RTN quantization executed by neural speed. -/
  | neuralSpeedRtnQuantize
  /-- Fresh weight-only quantization through the module graph
  (`convert_to_quantized_model`). -/
  | moduleGraphQuantize (method : String)
  /-- Any of the remaining pathways (bitsandbytes passthrough, mixed
  precision, smooth/static/dynamic quant, QAT, plain load). -/
  | otherPath (tag : Nat)
  deriving DecidableEq, Repr

def woq_method_strings : List String :=
  ["rtn", "awq", "teq", "gptq", "autoround"]

def neural_speed_use_gptq (qm : String) : Bool :=
  qm == "gptq" || qm == "autoround" || qm == "rtn"

def neural_speed_use_awq (qm : String) : Bool :=
  qm == "awq"

def from_pretrained_route (saved_quant_method : Option String)
    (use_neural_speed : Bool) (user_config : UserQConfigTag) : LoadOutcome :=
  match saved_quant_method with
  | some qm =>
    if use_neural_speed ∧ ¬ (qm ∈ ["dynamic", "static", "qat"]) then
      if qm ∈ woq_method_strings then
        .neuralSpeedReload qm (neural_speed_use_gptq qm)
          (neural_speed_use_awq qm)
      else .fatalExit
    else .loadLowBitReload
  | none =>
    match user_config with
    | .bitsAndBytes => .otherPath 0
    | .mixedPrecision => .otherPath 1
    | .rtn =>
      if use_neural_speed then .neuralSpeedRtnQuantize
      else .moduleGraphQuantize "rtn"
    | .awq =>
      if use_neural_speed then .fatalExit else .moduleGraphQuantize "awq"
    | .teq =>
      if use_neural_speed then .fatalExit else .moduleGraphQuantize "teq"
    | .gptq =>
      if use_neural_speed then .fatalExit else .moduleGraphQuantize "gptq"
    | .autoround =>
      if use_neural_speed then .fatalExit
      else .moduleGraphQuantize "autoround"
    | .smoothQuant => .otherPath 2
    | .staticQuant => .otherPath 3
    | .dynamicQuant => .otherPath 4
    | .qat => .otherPath 5
    | .noConfig => .otherPath 6

def is_non_rtn_woq (t : UserQConfigTag) : Bool :=
  match t with
  | .awq | .teq | .gptq | .autoround => true
  | _ => false

/-! ## Calibration tokenization and collate (lines 795-890)

The tokenizer collaborator is abstracted as a function from text to token
ids.  A dataset record exposes the optional `code`/`prompt`/`text`
fields; `tokenize_function` picks the first present one and terminates
fatally (`exit(0)`) when none is, embedded as `none`. -/

structure DatasetRecord where
  code : Option String
  prompt : Option String
  text : Option String
  deriving DecidableEq, Repr

def tokenize_function (tokenizer : String → List Int)
    (examples : DatasetRecord) : Option (List Int) :=
  match examples.code with
  | some c => some (tokenizer c)
  | none =>
    match examples.prompt with
    | some p => some (tokenizer p)
    | none =>
      match examples.text with
      | some t => some (tokenizer t)
      | none => none

/-- `torch.nn.functional.pad(x, (0, pad_len), value=v)` on a 1-D tensor:
a nonnegative `pad_len` appends `pad_len` copies of `v` on the right, and
a negative `pad_len` removes `-pad_len` trailing elements. -/
def torch_pad_right (xs : List Int) (pad_len : Int) (v : Int) : List Int :=
  if 0 ≤ pad_len then xs ++ List.replicate pad_len.toNat v
  else xs.take (xs.length - (-pad_len).toNat)

/-- The per-record `input_ids` processing in `collate_batch`
(lines 815-827): truncation to the first `calib_len` tokens when padding
is disabled, `pad(input_ids, (0, calib_len - len))` when enabled. -/
def collate_input_ids (calib_padding : Bool) (calib_len : Nat)
    (calib_pad_val : Int) (input_ids : List Int) : List Int :=
  match calib_padding with
  | false =>
    if input_ids.length > calib_len then input_ids.take calib_len
    else input_ids
  | true =>
    torch_pad_right input_ids ((calib_len : Int) - input_ids.length)
      calib_pad_val

def arange (n : Nat) : List Int :=
  (List.range n).map Int.ofNat

structure CollateResult where
  input_ids : List (List Int)
  attention_mask : List (List Int)
  position_ids : Option (List (List Int))
  last_ind : List Int
  deriving DecidableEq, Repr

/-- `collate_batch` (lines 810-857): per record, process `input_ids`,
build the attention mask (with a leading masked-out sentinel position for
`bloom`/`qwen`), always compute an arange of position ids, and include
the `position_ids` key in the returned mapping only when the model type
is in `MODEL_TYPES_REQUIRING_POSITION_IDS` (passed in abstractly, as it
is defined outside this file's source). -/
def collate_batch (model_type : String)
    (types_requiring_position_ids : List String) (calib_padding : Bool)
    (calib_len : Nat) (calib_pad_val : Int) (batch : List (List Int)) :
    CollateResult :=
  let ids := batch.map (collate_input_ids calib_padding calib_len
    calib_pad_val)
  { input_ids := ids
    attention_mask := ids.map fun x =>
      if model_type ∈ ["bloom", "qwen"] then 0 :: List.replicate x.length 1
      else List.replicate x.length 1
    position_ids :=
      if model_type ∈ types_requiring_position_ids then
        some (ids.map fun x => arange x.length)
      else none
    last_ind := ids.map fun x => (x.length : Int) - 1 }

/-- The per-record `input_ids` processing in `collate_batch_for_chatglm`
(lines 862-878): truncate to `calib_len`, then, when the model resolves
to `THUDM/chatglm-6b`, append the two-token eos suffix
`[130001, 130004]`. -/
def chatglm_collate_input_ids (is_chatglm_6b : Bool) (calib_len : Nat)
    (input_ids : List Int) : List Int :=
  let truncated :=
    if input_ids.length > calib_len then input_ids.take calib_len
    else input_ids
  match is_chatglm_6b with
  | true => truncated ++ [130001, 130004]
  | false => truncated

/-! ## `recover_export_model` (lines 100-153)

`recover_qparms` yields the parameters of a compact-format packed linear
module; the rewrite constructs a `WeightOnlyLinear` in optimum format
(passing `desc_act` as the constructor's `g_idx`), packs it, and then
overrides `g_idx` with the recovered permutation when it is present. -/

structure RecoveredQParms where
  groupsize : Nat
  in_features : Nat
  out_features : Nat
  desc_act : Bool
  g_idx : Option (List Nat)
  weight_dtype : String
  bits : Nat
  hasBias : Bool
  deriving DecidableEq, Repr

structure WeightOnlyLinearState where
  in_features : Nat
  out_features : Nat
  bits : Nat
  groupsize : Nat
  hasBias : Bool
  g_idx : Option (List Nat)
  packed : Bool
  deriving DecidableEq, Repr

/-- Modelled from the spec: `WeightOnlyLinear.__init__` and `.pack` are in
`neural_compressor` (not under `src/`); with `use_optimum_format=True`
the constructor's `g_idx` argument is invalid (ignored) and the packer
treats its `g_idx` input as an activation-order flag rather than the real
permutation, leaving some packer-determined value in the module's
`g_idx` field.  That value is abstracted by the `packer_g_idx`
parameter, so the theorems hold for every packer behaviour. -/
def won_construct_and_pack
    (packer_g_idx : Option (List Nat) → Option (List Nat))
    (q : RecoveredQParms) : WeightOnlyLinearState :=
  { in_features := q.in_features
    out_features := q.out_features
    bits := q.bits
    groupsize := q.groupsize
    hasBias := q.hasBias
    g_idx := packer_g_idx q.g_idx
    packed := true }

def recover_export_module
    (packer_g_idx : Option (List Nat) → Option (List Nat))
    (q : RecoveredQParms) : WeightOnlyLinearState :=
  let m := won_construct_and_pack packer_g_idx q
  if q.g_idx.isSome then { m with g_idx := q.g_idx } else m

/-! ## `save_low_bit` (lines 205-270)

The model's save-relevant state: presence of the `quantization_config`
attribute (asserted on entry), whether it is an FX-quantized wrapper, and
the flags mutated by the save path (`convert_model_to_public`,
`make_contiguous`).  The result pairs the post-call model state with the
list of artifacts written; the early return on a file path writes nothing
and leaves the model untouched. -/

structure SaveModel where
  hasQuantConfig : Bool
  isFXModel : Bool
  layoutPublic : Bool
  contiguous : Bool
  deriving DecidableEq, Repr

def save_low_bit (m : SaveModel) (path_is_file : Bool) :
    Except String (SaveModel × List String) :=
  if ¬ m.hasQuantConfig then
    .error "Detected this model is not a low-bit model."
  else if path_is_file then
    .ok (m, [])
  else if m.isFXModel then
    .ok (m, ["quantization_config", "config.json", "pytorch_model.bin"])
  else
    .ok ({ m with layoutPublic := true, contiguous := true },
      ["model_weights", "all_checkpoint_keys.json", "quantization_config"])

/-! ## Claim theorems -/

/-- C1 (counterexample): the claim that, with `weight_dtype` unset, every
`bits` value other than 4 and 8 fails with `InvalidWeightDtype` is false:
at `bits = 5` the resolution warns and falls back to `"int4_clip"`
instead of failing. -/
theorem C1_counterexample :
    resolve_weight_dtype none 5 = .ok "int4_clip" ∧
      resolve_weight_dtype none 5 ≠ .invalidWeightDtype := by
  constructor
  · rfl
  · decide

/-- C1 (amended): at reload, when `weight_dtype` is unset, `bits = 4`
resolves it to `"int4_clip"`, `bits = 8` to `"int8"`, and every other
`bits` value falls back to `"int4_clip"` with a logged warning rather
than failing; when `weight_dtype` is explicitly set it takes priority
over `bits`, and a value outside the recognized set fails with
`InvalidWeightDtype`. -/
theorem C1_weight_dtype_resolution (bits : Nat) (wd : String) :
    resolve_weight_dtype none bits =
        .ok (if bits = 4 then "int4_clip"
          else if bits = 8 then "int8" else "int4_clip") ∧
      resolve_weight_dtype (some wd) bits =
        (if wd ∈ recognized_weight_dtypes then .ok wd
          else .invalidWeightDtype) := by
  constructor
  · by_cases h4 : bits = 4
    · simp [resolve_weight_dtype, h4]
    · by_cases h8 : bits = 8 <;> simp [resolve_weight_dtype, h4, h8]
  · by_cases h : wd ∈ recognized_weight_dtypes <;>
      simp [resolve_weight_dtype, h]

/-- C2: at reload, for every resolved `weight_dtype`, the empty-weight
skeleton is allocated through the portable replacement path
(`replace_linear` with `empty_weights=True`) exactly when the dtype is in
the sub-8-bit excluded set {fp8_e5m2, fp8_e4m3, fp4, nf4,
int4_fullrange}, and through the compact packing path
(`build_woq_model`) otherwise. -/
theorem C2_skeleton_path_dispatch (cfg : WoqConfig)
    (model : List (String × PyModule)) :
    (cfg.weight_dtype ∈ sub8_excluded_dtypes →
      load_low_bit_build_skeleton cfg model = replace_linear_empty cfg model) ∧
    (cfg.weight_dtype ∉ sub8_excluded_dtypes →
      load_low_bit_build_skeleton cfg model = build_woq_model cfg model) := by
  constructor <;> intro h <;> simp [load_low_bit_build_skeleton, h]

/-- C2 (witness): with `weight_dtype = "nf4"` (in the excluded set) the
skeleton is allocated via the portable replacement path. -/
theorem C2_skeleton_path_dispatch_witness :
    load_low_bit_build_skeleton
        ⟨4, 32, true, none, "nf4"⟩ [("model.layers.0.mlp", .linear 2 3 true)] =
      replace_linear_empty
        ⟨4, 32, true, none, "nf4"⟩ [("model.layers.0.mlp", .linear 2 3 true)] :=
  (C2_skeleton_path_dispatch ⟨4, 32, true, none, "nf4"⟩
    [("model.layers.0.mlp", .linear 2 3 true)]).1 (by decide)

/-- C3 (counterexample): the claim that every load routed to neural speed
with a non-RTN method terminates fatally is false: reloading a saved
low-bit model whose persisted `quant_method` is `"gptq"` through neural
speed proceeds with the GPTQ flags instead of exiting. -/
theorem C3_counterexample :
    from_pretrained_route (some "gptq") true .noConfig =
        .neuralSpeedReload "gptq" true false ∧
      from_pretrained_route (some "gptq") true .noConfig ≠ .fatalExit := by
  constructor
  · rfl
  · decide

/-- C3 (amended): only fresh-quantization requests routed to neural speed
are restricted to RTN: a non-RTN weight-only method (AWQ/TEQ/GPTQ/
AutoRound) there terminates with a fatal configuration error while RTN
proceeds; at reload of a saved low-bit model, neural speed accepts every
persisted weight-only method and proceeds tagged with that method's own
flags, never silently replacing it by RTN. -/
theorem C3_neural_speed_restriction :
    (∀ t : UserQConfigTag, is_non_rtn_woq t = true →
      from_pretrained_route none true t = .fatalExit) ∧
    from_pretrained_route none true .rtn = .neuralSpeedRtnQuantize ∧
    (∀ (qm : String) (t : UserQConfigTag), qm ∈ woq_method_strings →
      from_pretrained_route (some qm) true t =
        .neuralSpeedReload qm (neural_speed_use_gptq qm)
          (neural_speed_use_awq qm)) := by
  refine ⟨fun t ht => ?_, rfl, fun qm t hqm => ?_⟩
  · cases t <;> simp [is_non_rtn_woq] at ht <;> rfl
  · simp only [woq_method_strings, List.mem_cons, List.not_mem_nil,
      or_false] at hqm
    rcases hqm with h | h | h | h | h <;> subst h <;> rfl

/-- C3 (witness): a fresh GPTQ request through neural speed exits
fatally, and a saved AWQ model reloads through neural speed with the AWQ
flag set. -/
theorem C3_neural_speed_restriction_witness :
    from_pretrained_route none true .gptq = .fatalExit ∧
      from_pretrained_route (some "awq") true .noConfig =
        .neuralSpeedReload "awq" (neural_speed_use_gptq "awq")
          (neural_speed_use_awq "awq") :=
  ⟨C3_neural_speed_restriction.1 .gptq rfl,
    C3_neural_speed_restriction.2.2 "awq" .noConfig (by decide)⟩

theorem length_collate_input_ids_no_pad (calib_len : Nat) (v : Int)
    (ids : List Int) :
    (collate_input_ids false calib_len v ids).length ≤ calib_len := by
  show (if ids.length > calib_len then ids.take calib_len else ids).length ≤
    calib_len
  by_cases h : ids.length > calib_len
  · simp [h]
  · simp only [h, if_false]
    omega

theorem length_collate_input_ids_pad (calib_len : Nat) (v : Int)
    (ids : List Int) :
    (collate_input_ids true calib_len v ids).length = calib_len := by
  show (torch_pad_right ids ((calib_len : Int) - ids.length) v).length =
    calib_len
  simp only [torch_pad_right]
  by_cases h : (0 : Int) ≤ (calib_len : Int) - ids.length
  · simp only [h, if_true, List.length_append, List.length_replicate]
    omega
  · simp only [h, if_false, List.length_take]
    omega

/-- C4 (counterexample): the claim that, with padding disabled, a batch's
`input_ids` never exceed `calib_len` tokens fails for the chatglm collate
path: a 2-token record under `calib_len = 1` for `THUDM/chatglm-6b` is
truncated to 1 token and then extended with the 2-token eos suffix,
yielding 3 tokens. -/
theorem C4_counterexample :
    (chatglm_collate_input_ids true 1 [7, 8]).length = 3 ∧
      ¬ (chatglm_collate_input_ids true 1 [7, 8]).length ≤ 1 := by
  constructor
  · rfl
  · decide

/-- C4 (amended): for `collate_batch`, every record's processed
`input_ids` have at most `calib_len` tokens when padding is disabled and
exactly `calib_len` tokens when padding is enabled, for all record
lengths; `collate_batch_for_chatglm` (which never pads) keeps at most
`calib_len` tokens except for `THUDM/chatglm-6b`, where the appended
2-token eos suffix allows up to `calib_len + 2` tokens. -/
theorem C4_calib_len_bounds :
    (∀ (mt : String) (pt : List String) (len : Nat) (v : Int)
        (batch : List (List Int)) (ids : List Int),
      ids ∈ (collate_batch mt pt false len v batch).input_ids →
        ids.length ≤ len) ∧
    (∀ (mt : String) (pt : List String) (len : Nat) (v : Int)
        (batch : List (List Int)) (ids : List Int),
      ids ∈ (collate_batch mt pt true len v batch).input_ids →
        ids.length = len) ∧
    (∀ (len : Nat) (ids : List Int),
      (chatglm_collate_input_ids false len ids).length ≤ len) ∧
    (∀ (len : Nat) (ids : List Int),
      (chatglm_collate_input_ids true len ids).length ≤ len + 2) := by
  refine ⟨fun mt pt len v batch ids h => ?_,
    fun mt pt len v batch ids h => ?_, fun len ids => ?_, fun len ids => ?_⟩
  · simp only [collate_batch, List.mem_map] at h
    obtain ⟨rec0, _, hrec⟩ := h
    subst hrec
    exact length_collate_input_ids_no_pad len v rec0
  · simp only [collate_batch, List.mem_map] at h
    obtain ⟨rec0, _, hrec⟩ := h
    subst hrec
    exact length_collate_input_ids_pad len v rec0
  · show (if ids.length > len then ids.take len else ids).length ≤ len
    by_cases hl : ids.length > len
    · simp [hl]
    · simp only [hl, if_false]
      omega
  · show ((if ids.length > len then ids.take len else ids) ++
      [130001, 130004]).length ≤ len + 2
    by_cases hl : ids.length > len
    · simp [hl]
    · simp only [hl, if_false, List.length_append]
      simp only [List.length_cons, List.length_nil]
      omega

/-- C4 (witness): a 3-token record under `calib_len = 2` with padding
enabled collates to exactly 2 tokens, and under chatglm-6b with
`calib_len = 3` stays within `3 + 2` tokens. -/
theorem C4_calib_len_bounds_witness :
    ([(7 : Int), 8].length = 2) ∧
      (chatglm_collate_input_ids true 3 [7, 8, 9, 10, 11]).length ≤ 3 + 2 :=
  ⟨C4_calib_len_bounds.2.1 "opt" [] 2 0 [[7, 8, 9]] [7, 8] (by decide),
    C4_calib_len_bounds.2.2.2 3 [7, 8, 9, 10, 11]⟩

/-- C5: `build_woq_model` never replaces a submodule whose qualified
name contains `"lm_head"`, `"output_layer"`, or `"embed_out"`: for every
input model graph and configuration, such an entry is returned unchanged
at its position, so those layers remain the original dense modules. -/
theorem C5_excluded_names_never_replaced (cfg : WoqConfig)
    (model : List (String × PyModule)) (i : Nat) (n : String)
    (m : PyModule) (hget : model[i]? = some (n, m))
    (hexcl : (strContains n "lm_head" || strContains n "output_layer" ||
      strContains n "embed_out") = true) :
    (build_woq_model cfg model)[i]? = some (n, m) := by
  simp only [build_woq_model, List.getElem?_map, hget, Option.map_some]
  have hname : excluded_module_name n = true := by
    simp only [excluded_module_name]
    exact hexcl
  simp [build_woq_replace, hname]

/-- C5 (witness): the entry named `transformer.lm_head` of a one-layer
model survives `build_woq_model` unchanged. -/
theorem C5_excluded_names_never_replaced_witness :
    (build_woq_model ⟨4, 128, true, none, "int4_clip"⟩
        [("transformer.lm_head", .linear 768 50257 false)])[0]? =
      some ("transformer.lm_head", .linear 768 50257 false) :=
  C5_excluded_names_never_replaced ⟨4, 128, true, none, "int4_clip"⟩
    [("transformer.lm_head", .linear 768 50257 false)] 0
    "transformer.lm_head" (.linear 768 50257 false) rfl (by decide)

/-- C6: `tokenize_function` tokenizes each record from its `code` field
when present, otherwise from `prompt`, otherwise from `text`; when none
of the three fields is present it terminates fatally
(`UnrecognizedDatasetSchema`), embedded as `none`, and succeeds in every
other case. -/
theorem C6_tokenize_field_choice (tokenizer : String → List Int)
    (r : DatasetRecord) :
    (∀ c, r.code = some c →
      tokenize_function tokenizer r = some (tokenizer c)) ∧
    (r.code = none → ∀ p, r.prompt = some p →
      tokenize_function tokenizer r = some (tokenizer p)) ∧
    (r.code = none → r.prompt = none → ∀ t, r.text = some t →
      tokenize_function tokenizer r = some (tokenizer t)) ∧
    (r.code = none → r.prompt = none → r.text = none →
      tokenize_function tokenizer r = none) := by
  refine ⟨fun c hc => ?_, fun hc p hp => ?_, fun hc hp t ht => ?_,
    fun hc hp ht => ?_⟩ <;>
    simp [tokenize_function, hc] <;> simp [hp] <;> simp [ht]

/-- C6 (witness): a record carrying only a `prompt` field tokenizes via
the prompt, and a record with none of the three fields fails. -/
theorem C6_tokenize_field_choice_witness :
    tokenize_function (fun s => [(s.length : Int)])
        ⟨none, some "hello", none⟩ =
      some ((fun s : String => [(s.length : Int)]) "hello") ∧
    tokenize_function (fun s => [(s.length : Int)]) ⟨none, none, none⟩ =
      none :=
  ⟨(C6_tokenize_field_choice (fun s => [(s.length : Int)])
      ⟨none, some "hello", none⟩).2.1 rfl "hello" rfl,
    (C6_tokenize_field_choice (fun s => [(s.length : Int)])
      ⟨none, none, none⟩).2.2.2 rfl rfl rfl⟩

/-- C7: after `recover_export_model` rewrites a packed module, whenever
the recovered permutation `g_idx` is not `None`, the resulting module's
`g_idx` equals that original permutation, for every behaviour of the
generic packer (which received `desc_act` in the constructor and the raw
array in the pack call). -/
theorem C7_g_idx_restored
    (packer_g_idx : Option (List Nat) → Option (List Nat))
    (q : RecoveredQParms) (p : List Nat) (h : q.g_idx = some p) :
    (recover_export_module packer_g_idx q).g_idx = some p := by
  simp [recover_export_module, won_construct_and_pack, h]

/-- C7 (witness): a recovered module with permutation `[1, 0]` ends with
`g_idx = [1, 0]` even under a packer that clears the field. -/
theorem C7_g_idx_restored_witness :
    (recover_export_module (fun _ => none)
        ⟨32, 4, 4, true, some [1, 0], "int4_clip", 4, false⟩).g_idx =
      some [1, 0] :=
  C7_g_idx_restored (fun _ => none)
    ⟨32, 4, 4, true, some [1, 0], "int4_clip", 4, false⟩ [1, 0] rfl

/-- C8: `collate_batch` includes a `position_ids` entry exactly when the
model type is in the set requiring explicit positional ids, in which case
it is the arange sequence over each processed record's length; otherwise
the key is omitted entirely (`none`), not set to a default. -/
theorem C8_position_ids_presence (mt : String) (pt : List String)
    (pad : Bool) (len : Nat) (v : Int) (batch : List (List Int)) :
    (mt ∈ pt → (collate_batch mt pt pad len v batch).position_ids =
      some ((collate_batch mt pt pad len v batch).input_ids.map
        fun x => arange x.length)) ∧
    (mt ∉ pt → (collate_batch mt pt pad len v batch).position_ids =
      none) := by
  constructor <;> intro h <;> simp [collate_batch, h]

/-- C8 (witness): a `llama` batch (position ids required) carries the
arange position ids, matching its processed input ids. -/
theorem C8_position_ids_presence_witness :
    (collate_batch "llama" ["llama", "gptj"] false 4 0
        [[5, 6, 7]]).position_ids =
      some ((collate_batch "llama" ["llama", "gptj"] false 4 0
        [[5, 6, 7]]).input_ids.map fun x => arange x.length) :=
  (C8_position_ids_presence "llama" ["llama", "gptj"] false 4 0
    [[5, 6, 7]]).1 (by decide)

/-- C9: when `save_low_bit` is called with a path that refers to an
existing file, it logs an error and returns early: no artifact is
written and the model state is unchanged (no layout conversion, no
contiguity pass). -/
theorem C9_save_low_bit_file_path (m : SaveModel)
    (h : m.hasQuantConfig = true) :
    save_low_bit m true = .ok (m, []) := by
  simp [save_low_bit, h]

/-- C9 (witness): a non-FX low-bit model saved onto a file path is
returned untouched with no writes. -/
theorem C9_save_low_bit_file_path_witness :
    save_low_bit ⟨true, false, false, false⟩ true =
      .ok (⟨true, false, false, false⟩, []) :=
  C9_save_low_bit_file_path ⟨true, false, false, false⟩ rfl

/-- C10: at reload, an unset `scale_dtype` defaults to `"fp32"`, a value
outside {fp32, fp16, bf16} is coerced to `"fp32"` (with a logged
warning) rather than raising, and a supported value is kept; the
resolution is total, so reload never fails because of `scale_dtype`. -/
theorem C10_scale_dtype_resolution :
    resolve_scale_dtype none = "fp32" ∧
      ∀ s : String, resolve_scale_dtype (some s) =
        if s ∈ supported_scale_dtypes then s else "fp32" := by
  constructor
  · rfl
  · intro s
    by_cases h : s ∈ supported_scale_dtypes <;>
      simp [resolve_scale_dtype, h]

end ModelingAuto
